import Mathlib

/-!
# Verification of the mcp-terminal secure command execution engine

Shallow embedding of `src/mcp_terminal/terminal.py` (class `TerminalExecutor`):
command validation (`_validate_command`), the resource monitor
(`_monitor_process`), batch execution (`execute`) and streaming execution
(`execute_stream`).  Machine integers are modelled as `Nat`/`Int`; Python
exceptions are modelled as explicit outcome constructors; the asynchronous
process environment (spawn result, produced output, wall time, resource
samples, read events) is passed in explicitly as data.
-/

namespace McpTerminal

/-- Configuration of one `TerminalExecutor`, mirroring `TerminalExecutor.__init__`.
`timeout_ms` and `max_output_size` are plain parameters with defaults
(30000 ms, 1 MiB); only the three resource ceilings are `Optional` in the code. -/
structure ExecConfig where
  allowed_commands : Option (List String) := none
  timeout_ms : Nat := 30000
  max_output_size : Nat := 1024 * 1024
  cpu_time_ms : Option Nat := none
  max_memory_mb : Option Nat := none
  max_processes : Option Nat := none
deriving Repr, DecidableEq

/-- Python truthiness of `Optional[List[str]]`: both `None` and the empty
list are falsy (`if not self.allowed_commands`). -/
def pyTruthyList (o : Option (List String)) : Bool :=
  match o with
  | none => false
  | some l => !l.isEmpty

/-- Python truthiness of `Optional[int]`: `None` and `0` are falsy
(`if self.cpu_time_ms:` etc.). -/
def pyTruthyNat (o : Option Nat) : Bool :=
  match o with
  | none => false
  | some n => n != 0

/-- Lexer state of the `shlex.split` model. -/
inductive LexState
  | normal
  | inSingle
  | inDouble
deriving Repr, DecidableEq

/-- The whitespace characters `shlex` splits on (`shlex.whitespace`). -/
def isShlexWhitespace (c : Char) : Bool :=
  c = ' ' || c = '\t' || c = '\r' || c = '\n'

/-- Append a character to the token being built (starting a token if none). -/
def pushChar (cur : Option String) (c : Char) : Option String :=
  some ((cur.getD "").push c)

/-- Flush the token being built at a token boundary. -/
def flushTok : Option String → List String
  | none => []
  | some t => [t]

/-- Worker for the `shlex.split` model: state, token under construction,
tokens produced so far, remaining characters. -/
def shlexRun : LexState → Option String → List String → List Char → Option (List String)
  | .normal, cur, acc, [] => some (acc ++ flushTok cur)
  | .normal, cur, acc, c :: cs =>
      if isShlexWhitespace c then shlexRun .normal none (acc ++ flushTok cur) cs
      else if c = '\'' then shlexRun .inSingle (some (cur.getD "")) acc cs
      else if c = '"' then shlexRun .inDouble (some (cur.getD "")) acc cs
      else if c = '\\' then
        match cs with
        | [] => none
        | d :: cs' => shlexRun .normal (pushChar cur d) acc cs'
      else shlexRun .normal (pushChar cur c) acc cs
  | .inSingle, _, _, [] => none
  | .inSingle, cur, acc, c :: cs =>
      if c = '\'' then shlexRun .normal cur acc cs
      else shlexRun .inSingle (pushChar cur c) acc cs
  | .inDouble, _, _, [] => none
  | .inDouble, cur, acc, c :: cs =>
      if c = '"' then shlexRun .normal cur acc cs
      else if c = '\\' then
        match cs with
        | [] => none
        | d :: cs' =>
            if d = '"' || d = '\\' then shlexRun .inDouble (pushChar cur d) acc cs'
            else shlexRun .inDouble (pushChar (pushChar cur '\\') d) acc cs'
      else shlexRun .inDouble (pushChar cur c) acc cs

/-- Model of Python `shlex.split` in POSIX mode: splits on unquoted
whitespace, single quotes are fully literal, inside double quotes a backslash
escapes only `"` and `\`, outside quotes a backslash escapes the next
character.  `none` models the `ValueError` that `shlex.split` raises on an
unterminated quote or a trailing escape character. -/
def shlexSplit (s : String) : Option (List String) :=
  shlexRun .normal none [] s.data

/-- The fixed operator deny-list of `_validate_command`
(`shell_operators = ["&&", "||", "|", ";", "` + "`" + `"]`). -/
def shell_operators : List String := ["&&", "||", "|", ";", "`"]

/-- `sub` occurs as a contiguous run inside the character list. -/
def listHasInfix (sub : List Char) : List Char → Bool
  | [] => sub.isEmpty
  | c :: t => sub.isPrefixOf (c :: t) || listHasInfix sub t

/-- `op in command`: Python substring containment, on the raw command text. -/
def strContains (command op : String) : Bool :=
  listHasInfix op.data command.data

/-- `any(op in command for op in shell_operators)`. -/
def containsShellOperator (command : String) : Bool :=
  shell_operators.any (fun op => strContains command op)

/-- `TerminalExecutor._validate_command`.  `True` when the command may
execute: no (truthy) allow-list means everything is allowed; otherwise the
command is word-split (`ValueError` ⇒ reject), an empty token list is
rejected, any chaining/substitution operator in the raw text is rejected, and
finally the first token must be a member of the allow-list. -/
def _validate_command (cfg : ExecConfig) (command : String) : Bool :=
  if !pyTruthyList cfg.allowed_commands then true
  else
    match shlexSplit command with
    | none => false
    | some [] => false
    | some (base_cmd :: _) =>
        if containsShellOperator command then false
        else (cfg.allowed_commands.getD []).contains base_cmd

/-! ## Resource monitor (`TerminalExecutor._monitor_process`) -/

/-- One sample of the monitor's polling loop (one iteration of
`while process.returncode is None`).  `cpuTotalMs` is
`(cpu_time.user + cpu_time.system) * 1000`; `rssBytes` is
`memory_info().rss`; `childrenCount` is `len(proc.children(recursive=True))`.
`mainVanished` models `psutil.NoSuchProcess` raised while querying the main
process; `childrenVanished` models it raised inside the `max_processes`
block. -/
structure ResourceSample where
  cpuTotalMs : Nat
  rssBytes : Nat
  childrenCount : Nat
  mainVanished : Bool := false
  childrenVanished : Bool := false
deriving Repr, DecidableEq

/-- Which resource ceiling was breached (the `ValueError` messages
"CPU time limit exceeded", "Memory limit exceeded", "Process limit exceeded"). -/
inductive BreachKind
  | cpu
  | memory
  | processes
deriving Repr, DecidableEq

/-- Result of the monitor task: either the loop ended with the process gone
(normal exit or the benign `psutil.NoSuchProcess` break), or a breach was
detected.  `descendantsKilled` records whether the child-kill loop ran before
the root was killed; `rootKilled` records `process.kill()`. -/
inductive MonitorResult
  | finished
  | breach (kind : BreachKind) (descendantsKilled : Bool) (rootKilled : Bool)
deriving Repr, DecidableEq

/-- `TerminalExecutor._monitor_process`, one sample per loop iteration; the
list ends when `process.returncode` stops being `None`.  Checks run in source
order (CPU, then memory, then process count); a falsy ceiling (`None` or `0`)
skips its check; the memory comparison `rss / (1024*1024) > max_memory_mb` is
taken exactly, as `rssBytes > max_memory_mb * 1024 * 1024`.  A CPU or memory
breach kills only the root process; a process-count breach kills the
descendants and then the root.  `psutil.NoSuchProcess` on the main process
breaks the loop; inside the process-count block it skips that check and
continues. -/
def _monitor_process (cfg : ExecConfig) : List ResourceSample → MonitorResult
  | [] => .finished
  | s :: rest =>
      if s.mainVanished then .finished
      else if pyTruthyNat cfg.cpu_time_ms && decide (s.cpuTotalMs > cfg.cpu_time_ms.getD 0) then
        .breach .cpu false true
      else if pyTruthyNat cfg.max_memory_mb &&
          decide (s.rssBytes > cfg.max_memory_mb.getD 0 * (1024 * 1024)) then
        .breach .memory false true
      else if pyTruthyNat cfg.max_processes then
        if s.childrenVanished then _monitor_process cfg rest
        else if s.childrenCount + 1 > cfg.max_processes.getD 0 then
          .breach .processes true true
        else _monitor_process cfg rest
      else _monitor_process cfg rest

/-! ## Batch execution (`TerminalExecutor.execute`) -/

/-- `CommandResult`, minus the two wall-clock timestamps (`start_time`,
`end_time` and the derived `duration_ms` are real-time data outside the
embedding).  `exit_code` is an `Int`: asyncio reports signal deaths as
negative codes. -/
structure CommandResult where
  command : String
  exit_code : Int
  stdout : String
  stderr : String
deriving Repr, DecidableEq

/-- Behaviour of a successfully spawned process for one invocation: the
output it would deliver to `communicate()`, its exit code, the wall-clock
milliseconds until `communicate()` returns, and the resource samples the
monitor observes while it runs. -/
structure ProcBehavior where
  stdout : String
  stderr : String
  exitCode : Int
  wallMs : Nat
  samples : List ResourceSample
deriving Repr, DecidableEq

/-- What `asyncio.create_subprocess_shell` does for this invocation:
`fileNotFound` models `FileNotFoundError` at spawn, `otherError` any other
spawn-time exception (caught by the generic handler), `ok` a spawned
process with the given behaviour. -/
inductive SpawnResult
  | fileNotFound
  | otherError (msg : String)
  | ok (beh : ProcBehavior)
deriving Repr, DecidableEq

/-- How `execute` finishes: a returned `CommandResult`, a raised
`asyncio.TimeoutError`, a raised `ValueError` from the resource monitor, or a
raised `ValueError` for the output-size cap. -/
inductive ExecRes
  | result (r : CommandResult)
  | timeoutError
  | limitError (kind : BreachKind)
  | sizeError (cap : Nat)
deriving Repr, DecidableEq

/-- Outcome of one batch invocation, together with the process-lifecycle
facts needed by the spec's invariants: whether a process was spawned and
lived, whether it exited on its own (`communicate()` returned because the
process ended), whether `process.kill()` was issued on this path, and how
many output characters were accumulated and decoded before the size check
(`total_size = len(stdout) + len(stderr)`; `0` on paths that never reach the
decode). -/
structure ExecOutcome where
  res : ExecRes
  spawned : Bool
  exitedNaturally : Bool
  killIssued : Bool
  accumulatedBytes : Nat
deriving Repr, DecidableEq

/-- `TerminalExecutor.execute`.  Validation failure returns exit code 126;
`FileNotFoundError` at spawn returns 127; any other spawn-time exception
returns the sentinel -1.  With a live process, a resource breach detected by
the monitor kills the process and re-raises the monitor's `ValueError`
(`communicate()` returns early because the monitor killed the process, and
the `await monitor_task` after `monitor_task.cancel()` re-raises); otherwise
exceeding `timeout_ms` kills the process and re-raises
`asyncio.TimeoutError`; otherwise the full output is accumulated by
`communicate()`, decoded, and only then checked against `max_output_size`
(breach: `process.kill()` and a raised `ValueError`); otherwise the process's
exit code and output are returned. -/
def execute (cfg : ExecConfig) (command : String) (w : SpawnResult) : ExecOutcome :=
  if !_validate_command cfg command then
    { res := .result { command := command, exit_code := 126, stdout := "",
                       stderr := "command not allowed" },
      spawned := false, exitedNaturally := false, killIssued := false,
      accumulatedBytes := 0 }
  else
    match w with
    | .fileNotFound =>
        { res := .result { command := command, exit_code := 127, stdout := "",
                           stderr := "command not found" },
          spawned := false, exitedNaturally := false, killIssued := false,
          accumulatedBytes := 0 }
    | .otherError msg =>
        { res := .result { command := command, exit_code := -1, stdout := "",
                           stderr := msg },
          spawned := false, exitedNaturally := false, killIssued := false,
          accumulatedBytes := 0 }
    | .ok beh =>
        match _monitor_process cfg beh.samples with
        | .breach kind _ _ =>
            { res := .limitError kind, spawned := true, exitedNaturally := false,
              killIssued := true, accumulatedBytes := 0 }
        | .finished =>
            if beh.wallMs > cfg.timeout_ms then
              { res := .timeoutError, spawned := true, exitedNaturally := false,
                killIssued := true, accumulatedBytes := 0 }
            else
              let total_size := beh.stdout.length + beh.stderr.length
              if total_size > cfg.max_output_size then
                { res := .sizeError cfg.max_output_size, spawned := true,
                  exitedNaturally := true, killIssued := true,
                  accumulatedBytes := total_size }
              else
                { res := .result { command := command, exit_code := beh.exitCode,
                                   stdout := beh.stdout, stderr := beh.stderr },
                  spawned := true, exitedNaturally := true, killIssued := false,
                  accumulatedBytes := total_size }

/-- A spawned process that neither exited on its own nor was sent a kill
would still be running when `execute` finishes. -/
def processOutlives (o : ExecOutcome) : Bool :=
  o.spawned && !o.exitedNaturally && !o.killIssued

/-! ## Streaming execution (`TerminalExecutor.execute_stream`) -/

/-- Which output-channel key a yielded chunk dictionary carries. -/
inductive Tag
  | stdout
  | stderr
deriving Repr, DecidableEq

/-- One iteration of the streaming read loop: the wall-clock milliseconds
elapsed when the loop re-checks the deadline, and the data obtained by the
two bounded 1024-byte reads this iteration (`none` when the 0.1 s read timed
out or the channel is exhausted).  The step list ends when both channels are
exhausted and the process has exited. -/
structure StreamStep where
  elapsedMs : Nat
  stdoutData : Option String := none
  stderrData : Option String := none
deriving Repr, DecidableEq

/-- How the streaming generator terminates: ran to completion, stopped after
a rejected command, stopped after the output-size cap was breached, or raised
`asyncio.TimeoutError` out of the generator. -/
inductive StreamOutcome
  | completed
  | rejected
  | sizeExceeded
  | timedOut
deriving Repr, DecidableEq

/-- Everything observable about one streaming invocation: the data chunks
yielded (in order, tagged by channel), an optional trailing stderr-keyed
message chunk yielded after them (the "command not allowed" or "Output size
exceeded ..." dictionaries), the way the generator terminated, and whether
`process.kill()` was issued. -/
structure StreamResult where
  chunks : List (Tag × String)
  trailingMsg : Option String
  outcome : StreamOutcome
  killIssued : Bool
deriving Repr, DecidableEq

/-- The f-string `f"Output size exceeded ... bytes"` yielded on a cap breach. -/
def sizeExceededMsg (cap : Nat) : String :=
  "Output size exceeded " ++ toString cap ++ " bytes"

/-- Prepend a yielded chunk to the rest of the stream's result. -/
def prependChunk (c : Tag × String) (r : StreamResult) : StreamResult :=
  { r with chunks := c :: r.chunks }

/-- The `while not (stdout_done and stderr_done)` loop of `execute_stream`,
with `total` the running `total_size`.  Each iteration first re-checks the
wall-clock deadline (`process.kill()` and raise on expiry), then handles this
iteration's stdout read and then its stderr read: a chunk first bumps
`total_size`, and if the new total exceeds `max_output_size` the process is
killed, the size-exceeded stderr message is yielded, and the generator
returns — the oversized chunk itself is never yielded; otherwise the chunk is
yielded and the loop continues. -/
def streamLoop (cfg : ExecConfig) : Nat → List StreamStep → StreamResult
  | _, [] => { chunks := [], trailingMsg := none, outcome := .completed, killIssued := false }
  | total, st :: rest =>
      if st.elapsedMs > cfg.timeout_ms then
        { chunks := [], trailingMsg := none, outcome := .timedOut, killIssued := true }
      else
        match st.stdoutData, st.stderrData with
        | none, none => streamLoop cfg total rest
        | some o, none =>
            if total + o.length > cfg.max_output_size then
              { chunks := [], trailingMsg := some (sizeExceededMsg cfg.max_output_size),
                outcome := .sizeExceeded, killIssued := true }
            else prependChunk (.stdout, o) (streamLoop cfg (total + o.length) rest)
        | none, some e =>
            if total + e.length > cfg.max_output_size then
              { chunks := [], trailingMsg := some (sizeExceededMsg cfg.max_output_size),
                outcome := .sizeExceeded, killIssued := true }
            else prependChunk (.stderr, e) (streamLoop cfg (total + e.length) rest)
        | some o, some e =>
            if total + o.length > cfg.max_output_size then
              { chunks := [], trailingMsg := some (sizeExceededMsg cfg.max_output_size),
                outcome := .sizeExceeded, killIssued := true }
            else if total + o.length + e.length > cfg.max_output_size then
              prependChunk (.stdout, o)
                { chunks := [], trailingMsg := some (sizeExceededMsg cfg.max_output_size),
                  outcome := .sizeExceeded, killIssued := true }
            else
              prependChunk (.stdout, o) (prependChunk (.stderr, e)
                (streamLoop cfg (total + o.length + e.length) rest))

/-- `TerminalExecutor.execute_stream`.  A rejected command yields the single
stderr-keyed chunk `"command not allowed"` and returns without spawning;
otherwise the read loop runs with `total_size = 0`.  (No resource monitor
task is started in streaming mode.) -/
def execute_stream (cfg : ExecConfig) (command : String) (steps : List StreamStep) :
    StreamResult :=
  if !_validate_command cfg command then
    { chunks := [], trailingMsg := some "command not allowed", outcome := .rejected,
      killIssued := false }
  else streamLoop cfg 0 steps

/-- Total size of the data chunks yielded by a streaming invocation
(the quantity the code tracks as `total_size`). -/
def streamedDataBytes (r : StreamResult) : Nat :=
  (r.chunks.map (fun c => c.2.length)).sum

/-- The full sequence of dictionaries the generator yields, in order: the
data chunks followed by the trailing stderr-keyed message when there is one. -/
def yieldedSeq (r : StreamResult) : List (Tag × String) :=
  r.chunks ++ (match r.trailingMsg with
    | some m => [(Tag.stderr, m)]
    | none => [])

/-! ## Concrete fixtures used by witnesses and counterexamples -/

/-- Executor with only the constructor defaults (no allow-list, 30000 ms
timeout, 1 MiB output cap, no resource ceilings). -/
def cfgDefaults : ExecConfig := {}

/-- Executor with a 5-byte output cap and otherwise default settings. -/
def cfgCap5 : ExecConfig := { max_output_size := 5 }

/-- Executor allowing only `echo`. -/
def cfgEcho : ExecConfig := { allowed_commands := some ["echo"] }

/-- Executor constructed with a present-but-empty allow-list. -/
def cfgEmptyAllow : ExecConfig := { allowed_commands := some [] }

/-- Executor with a 100 ms CPU-time ceiling and no other resource ceilings. -/
def cfgCpu100 : ExecConfig := { cpu_time_ms := some 100 }

/-- A process that prints ten characters and exits cleanly. -/
def behBig : ProcBehavior :=
  { stdout := "0123456789", stderr := "", exitCode := 0, wallMs := 1, samples := [] }

/-- A process that prints `hello` and exits cleanly. -/
def behHello : ProcBehavior :=
  { stdout := "hello\n", stderr := "", exitCode := 0, wallMs := 5, samples := [] }

/-- A process that would run for 60 s, past the default 30 s deadline. -/
def behSlow : ProcBehavior :=
  { stdout := "", stderr := "", exitCode := 0, wallMs := 60000, samples := [] }

/-- A monitor sample with 250 ms of CPU consumed and three live descendants. -/
def sampleCpuBusy : ResourceSample :=
  { cpuTotalMs := 250, rssBytes := 0, childrenCount := 3 }

/-- Streaming run: one 2-byte chunk arrives, then the deadline expires. -/
def stepsThenLate : List StreamStep :=
  [{ elapsedMs := 0, stdoutData := some "hi" }, { elapsedMs := 40000 }]

/-- Streaming run: a single 10-byte chunk arrives immediately. -/
def stepsBig : List StreamStep :=
  [{ elapsedMs := 0, stdoutData := some "0123456789" }]

/-! ## Helper lemmas about the streaming loop -/

theorem streamedDataBytes_prepend (t : Tag) (s : String) (r : StreamResult) :
    streamedDataBytes (prependChunk (t, s) r) = s.length + streamedDataBytes r := by
  simp [streamedDataBytes, prependChunk]

theorem streamLoop_total_le (cfg : ExecConfig) :
    ∀ (steps : List StreamStep) (total : Nat), total ≤ cfg.max_output_size →
      total + streamedDataBytes (streamLoop cfg total steps) ≤ cfg.max_output_size := by
  intro steps
  induction steps with
  | nil =>
      intro total h
      simpa [streamLoop, streamedDataBytes] using h
  | cons st rest ih =>
      intro total h
      unfold streamLoop
      split
      · simpa [streamedDataBytes] using h
      · cases ho : st.stdoutData with
        | none =>
            cases he : st.stderrData with
            | none => simpa using ih total h
            | some e =>
                simp only
                split
                · simpa [streamedDataBytes] using h
                · rename_i hle
                  rw [streamedDataBytes_prepend]
                  have := ih (total + e.length) (Nat.le_of_not_lt hle)
                  omega
        | some o =>
            cases he : st.stderrData with
            | none =>
                simp only
                split
                · simpa [streamedDataBytes] using h
                · rename_i hle
                  rw [streamedDataBytes_prepend]
                  have := ih (total + o.length) (Nat.le_of_not_lt hle)
                  omega
            | some e =>
                simp only
                split
                · simpa [streamedDataBytes] using h
                · split
                  · rename_i hle _
                    rw [streamedDataBytes_prepend]
                    simp [streamedDataBytes]
                    omega
                  · rename_i hle1 hle2
                    rw [streamedDataBytes_prepend, streamedDataBytes_prepend]
                    have := ih (total + o.length + e.length) (Nat.le_of_not_lt hle2)
                    omega

theorem streamLoop_sizeExceeded (cfg : ExecConfig) :
    ∀ (steps : List StreamStep) (total : Nat),
      (streamLoop cfg total steps).outcome = .sizeExceeded →
      (streamLoop cfg total steps).trailingMsg = some (sizeExceededMsg cfg.max_output_size) ∧
      (streamLoop cfg total steps).killIssued = true := by
  intro steps
  induction steps with
  | nil => intro total h; simp [streamLoop] at h
  | cons st rest ih =>
      intro total
      unfold streamLoop
      split
      · intro h; simp at h
      · cases st.stdoutData with
        | none =>
            cases st.stderrData with
            | none => exact ih total
            | some e =>
                simp only
                split
                · intro _; exact ⟨rfl, rfl⟩
                · simpa [prependChunk] using ih (total + e.length)
        | some o =>
            cases st.stderrData with
            | none =>
                simp only
                split
                · intro _; exact ⟨rfl, rfl⟩
                · simpa [prependChunk] using ih (total + o.length)
            | some e =>
                simp only
                split
                · intro _; exact ⟨rfl, rfl⟩
                · split
                  · intro _; simp [prependChunk]
                  · simpa [prependChunk] using ih (total + o.length + e.length)

theorem streamLoop_timedOut (cfg : ExecConfig) :
    ∀ (steps : List StreamStep) (total : Nat),
      (streamLoop cfg total steps).outcome = .timedOut →
      (streamLoop cfg total steps).trailingMsg = none ∧
      (streamLoop cfg total steps).killIssued = true := by
  intro steps
  induction steps with
  | nil => intro total h; simp [streamLoop] at h
  | cons st rest ih =>
      intro total
      unfold streamLoop
      split
      · intro _; exact ⟨rfl, rfl⟩
      · cases st.stdoutData with
        | none =>
            cases st.stderrData with
            | none => exact ih total
            | some e =>
                simp only
                split
                · intro h; simp at h
                · simpa [prependChunk] using ih (total + e.length)
        | some o =>
            cases st.stderrData with
            | none =>
                simp only
                split
                · intro h; simp at h
                · simpa [prependChunk] using ih (total + o.length)
            | some e =>
                simp only
                split
                · intro h; simp at h
                · split
                  · intro h; simp [prependChunk] at h
                  · simpa [prependChunk] using ih (total + o.length + e.length)

/-! ## Claim theorems -/

/-- C2: any command string containing one of the shell operators `;`, `&&`,
`||`, `|`, or backtick is rejected by the validator whenever a (non-empty,
hence truthy) allow-list is configured — regardless of which tokens it
contains — and `execute` then returns the ValidationRejected result (exit
code 126) without spawning a process. -/
theorem C2_operators_rejected (cfg : ExecConfig) (command : String) (l : List String)
    (hl : cfg.allowed_commands = some l) (hne : l ≠ [])
    (hop : containsShellOperator command = true) :
    _validate_command cfg command = false ∧
    ∀ w, execute cfg command w =
      { res := .result { command := command, exit_code := 126, stdout := "",
                         stderr := "command not allowed" },
        spawned := false, exitedNaturally := false, killIssued := false,
        accumulatedBytes := 0 } := by
  have hval : _validate_command cfg command = false := by
    unfold _validate_command
    rw [hl]
    have htr : pyTruthyList (some l) = true := by
      simp [pyTruthyList, List.isEmpty_iff, hne]
    rw [htr]
    simp only [Bool.not_true, Bool.false_eq_true, if_false]
    cases h : shlexSplit command with
    | none => rfl
    | some parts =>
        cases parts with
        | nil => rfl
        | cons base rest => simp [hop]
  refine ⟨hval, fun w => ?_⟩
  unfold execute
  rw [hval]
  rfl

/-- C2 witness: the allow-listed first token `echo` does not save a chained
command from rejection. -/
theorem C2_operators_rejected_witness :
    _validate_command cfgEcho "echo a && echo b" = false ∧
    ∀ w, execute cfgEcho "echo a && echo b" w =
      { res := .result { command := "echo a && echo b", exit_code := 126, stdout := "",
                         stderr := "command not allowed" },
        spawned := false, exitedNaturally := false, killIssued := false,
        accumulatedBytes := 0 } :=
  C2_operators_rejected cfgEcho "echo a && echo b" ["echo"] rfl (by decide) (by decide)

/-- C3 counterexample: with a present-but-empty allow-list the validator
accepts every command (the empty Python list is falsy, so
`if not self.allowed_commands` treats it like `None`), and `execute` spawns
the process instead of returning exit code 126. -/
theorem C3_counterexample :
    _validate_command cfgEmptyAllow "cat /etc/passwd" = true ∧
    (execute cfgEmptyAllow "cat /etc/passwd" (.ok behHello)).spawned = true ∧
    (execute cfgEmptyAllow "cat /etc/passwd" (.ok behHello)).res ≠
      .result { command := "cat /etc/passwd", exit_code := 126, stdout := "",
                stderr := "command not allowed" } := by
  decide

/-- C3 (amended): a present-but-empty allow-list behaves exactly like an
absent one — every command passes validation and a spawned process is driven
normally, rather than every command being rejected. -/
theorem C3_empty_allowlist_allows (cfg : ExecConfig) (command : String)
    (h : cfg.allowed_commands = some []) :
    _validate_command cfg command = true ∧
    ∀ beh, (execute cfg command (.ok beh)).spawned = true := by
  have hval : _validate_command cfg command = true := by
    unfold _validate_command
    rw [h]
    simp [pyTruthyList]
  refine ⟨hval, fun beh => ?_⟩
  unfold execute
  rw [hval]
  simp only [Bool.not_true, Bool.false_eq_true, if_false]
  cases hm : _monitor_process cfg beh.samples with
  | finished =>
      by_cases ht : beh.wallMs > cfg.timeout_ms
      · simp [hm, ht]
      · by_cases hs : beh.stdout.length + beh.stderr.length > cfg.max_output_size
        · simp [hm, ht, hs]
        · simp [hm, ht, hs]
  | breach kind d r => simp [hm]

/-- C3 witness: the empty allow-list lets `cat /etc/passwd` through. -/
theorem C3_empty_allowlist_allows_witness :
    _validate_command cfgEmptyAllow "cat /etc/passwd" = true ∧
    ∀ beh, (execute cfgEmptyAllow "cat /etc/passwd" (.ok beh)).spawned = true :=
  C3_empty_allowlist_allows cfgEmptyAllow "cat /etc/passwd" rfl

/-- C5: on every path of `execute` — rejection, spawn failure, resource
breach, timeout, output-cap breach, normal completion — the invocation
finishes with the process either never live, exited on its own, or sent a
kill: no process outlives its result. -/
theorem C5_no_process_outlives (cfg : ExecConfig) (command : String) (w : SpawnResult) :
    processOutlives (execute cfg command w) = false := by
  unfold execute
  by_cases hv : _validate_command cfg command
  · simp only [hv, Bool.not_true, Bool.false_eq_true, if_false]
    cases w with
    | fileNotFound => rfl
    | otherError msg => rfl
    | ok beh =>
        cases hm : _monitor_process cfg beh.samples with
        | breach kind d r => simp [hm, processOutlives]
        | finished =>
            by_cases ht : beh.wallMs > cfg.timeout_ms
            · simp [hm, ht, processOutlives]
            · by_cases hs : beh.stdout.length + beh.stderr.length > cfg.max_output_size
              · simp [hm, ht, hs, processOutlives]
              · simp [hm, ht, hs, processOutlives]
  · simp only [Bool.not_eq_true] at hv
    simp [hv, processOutlives]

/-- C6: a validated command whose process exits normally with code N
(0 ≤ N ≤ 255) within the deadline, within the output cap, and with no
resource breach is reported with exit code N and its own stdout/stderr. -/
theorem C6_normal_exit_reported (cfg : ExecConfig) (command : String) (beh : ProcBehavior)
    (hv : _validate_command cfg command = true)
    (hm : _monitor_process cfg beh.samples = .finished)
    (ht : beh.wallMs ≤ cfg.timeout_ms)
    (hs : beh.stdout.length + beh.stderr.length ≤ cfg.max_output_size)
    (_h0 : 0 ≤ beh.exitCode) (_h255 : beh.exitCode ≤ 255) :
    (execute cfg command (.ok beh)).res =
      .result { command := command, exit_code := beh.exitCode,
                stdout := beh.stdout, stderr := beh.stderr } := by
  unfold execute
  have h1 : ¬ (beh.wallMs > cfg.timeout_ms) := by omega
  have h2 : ¬ (beh.stdout.length + beh.stderr.length > cfg.max_output_size) := by omega
  simp [hv, hm, h1, h2]

/-- C6 witness: `echo hello` exits 0 with stdout `"hello\n"`. -/
theorem C6_normal_exit_reported_witness :
    (execute cfgDefaults "echo hello" (.ok behHello)).res =
      .result { command := "echo hello", exit_code := 0,
                stdout := "hello\n", stderr := "" } :=
  C6_normal_exit_reported cfgDefaults "echo hello" behHello (by decide) (by decide)
    (by decide) (by decide) (by decide) (by decide)

/-- C7: `execute` returns a normal `CommandResult` with exit code 126 when
validation rejects and 127 when the executable cannot be located, while a
wall-clock timeout and a resource-limit breach are surfaced as the raised
failures `asyncio.TimeoutError` and `ValueError` — distinct constructors of
`ExecRes`, not numeric exit codes in a returned result. -/
theorem C7_reserved_exit_codes (cfg : ExecConfig) (command : String) :
    (∀ w, _validate_command cfg command = false →
        (execute cfg command w).res =
          .result { command := command, exit_code := 126, stdout := "",
                    stderr := "command not allowed" } ∧
        (execute cfg command w).spawned = false) ∧
    (_validate_command cfg command = true →
        (execute cfg command .fileNotFound).res =
          .result { command := command, exit_code := 127, stdout := "",
                    stderr := "command not found" }) ∧
    (∀ beh, _validate_command cfg command = true →
        _monitor_process cfg beh.samples = .finished →
        beh.wallMs > cfg.timeout_ms →
        (execute cfg command (.ok beh)).res = .timeoutError) ∧
    (∀ beh kind d r, _validate_command cfg command = true →
        _monitor_process cfg beh.samples = .breach kind d r →
        (execute cfg command (.ok beh)).res = .limitError kind) := by
  refine ⟨fun w hv => ?_, fun hv => ?_, fun beh hv hm ht => ?_, fun beh kind d r hv hm => ?_⟩
  · unfold execute
    rw [hv]
    exact ⟨rfl, rfl⟩
  · unfold execute
    rw [hv]
    rfl
  · unfold execute
    simp [hv, hm, ht]
  · unfold execute
    simp [hv, hm]

/-- C7 witness: a command whose first token is not allow-listed yields the
126 result without a spawn. -/
theorem C7_reserved_exit_codes_witness :
    (execute cfgEcho "cat /etc/passwd" SpawnResult.fileNotFound).res =
      .result { command := "cat /etc/passwd", exit_code := 126, stdout := "",
                stderr := "command not allowed" } ∧
    (execute cfgEcho "cat /etc/passwd" SpawnResult.fileNotFound).spawned = false :=
  (C7_reserved_exit_codes cfgEcho "cat /etc/passwd").1 SpawnResult.fileNotFound (by decide)

/-- C8 counterexample: with a 100 ms CPU ceiling, the first breaching sample
(250 ms of CPU, three live descendants) makes the monitor kill only the root
process — the descendants are not terminated, although the claim requires
termination of every live descendant before the root. -/
theorem C8_counterexample :
    _monitor_process cfgCpu100 [sampleCpuBusy] =
      .breach .cpu false true ∧
    sampleCpuBusy.childrenCount = 3 := by
  decide

/-- C8 (amended): the first sample breaching a configured ceiling kills the
root process and raises ResourceLimitExceeded, but only a process-count
breach also kills the live descendants first; CPU-time and memory breaches
kill the root alone.  A vanished main process is treated as benign and ends
monitoring without a breach. -/
theorem C8_breach_kill_policy :
    (∀ (cfg : ExecConfig) (samples : List ResourceSample) (kind : BreachKind) (d r : Bool),
        _monitor_process cfg samples = .breach kind d r →
        r = true ∧ (d = true ↔ kind = .processes)) ∧
    (∀ (cfg : ExecConfig) (s : ResourceSample) (rest : List ResourceSample),
        s.mainVanished = true → _monitor_process cfg (s :: rest) = .finished) := by
  constructor
  · intro cfg samples
    induction samples with
    | nil => intro kind d r h; simp [_monitor_process] at h
    | cons s rest ih =>
        intro kind d r h
        unfold _monitor_process at h
        split at h
        · exact absurd h (by simp)
        · split at h
          · cases h; simp
          · split at h
            · cases h; simp
            · split at h
              · split at h
                · exact ih kind d r h
                · split at h
                  · cases h; simp
                  · exact ih kind d r h
              · exact ih kind d r h
  · intro cfg s rest hs
    unfold _monitor_process
    simp [hs]

/-- C8 witness: the concrete CPU breach exercises the amended kill policy. -/
theorem C8_breach_kill_policy_witness :
    (true : Bool) = true ∧ ((false : Bool) = true ↔ BreachKind.cpu = BreachKind.processes) :=
  C8_breach_kill_policy.1 cfgCpu100 [sampleCpuBusy] .cpu false true (by decide)

/-- C10: a resource ceiling set to `0` is falsy in Python, so its check is
skipped entirely — the monitor can never report a breach of a zero-valued
dimension, hence never kills the process on account of it. -/
theorem C10_zero_limit_is_no_limit (cfg : ExecConfig) (samples : List ResourceSample)
    (kind : BreachKind) (d r : Bool)
    (h : _monitor_process cfg samples = .breach kind d r) :
    (kind = .cpu → cfg.cpu_time_ms ≠ some 0) ∧
    (kind = .memory → cfg.max_memory_mb ≠ some 0) ∧
    (kind = .processes → cfg.max_processes ≠ some 0) := by
  induction samples with
  | nil => simp [_monitor_process] at h
  | cons s rest ih =>
      unfold _monitor_process at h
      split at h
      · exact absurd h (by simp)
      · split at h
        · rename_i hcpu
          cases h
          have : pyTruthyNat cfg.cpu_time_ms = true := by
            cases hc : pyTruthyNat cfg.cpu_time_ms <;> simp [hc] at hcpu ⊢
          refine ⟨fun _ => ?_, by simp, by simp⟩
          intro h0
          rw [h0] at this
          simp [pyTruthyNat] at this
        · split at h
          · rename_i hmem
            cases h
            have : pyTruthyNat cfg.max_memory_mb = true := by
              cases hc : pyTruthyNat cfg.max_memory_mb <;> simp [hc] at hmem ⊢
            refine ⟨by simp, fun _ => ?_, by simp⟩
            intro h0
            rw [h0] at this
            simp [pyTruthyNat] at this
          · split at h
            · rename_i hproc
              split at h
              · exact ih h
              · split at h
                · cases h
                  refine ⟨by simp, by simp, fun _ => ?_⟩
                  intro h0
                  rw [h0] at hproc
                  simp [pyTruthyNat] at hproc
                · exact ih h
            · exact ih h

/-- C10 witness: the 100 ms CPU ceiling that produced a breach is not zero. -/
theorem C10_zero_limit_is_no_limit_witness :
    cfgCpu100.cpu_time_ms ≠ some 0 :=
  (C10_zero_limit_is_no_limit cfgCpu100 [sampleCpuBusy] .cpu false true (by decide)).1 rfl

/-- C1 counterexample: in batch mode the cap is checked only after
`communicate()` has collected and decoded the whole output, so a 10-byte
output is fully accumulated under a 5-byte cap before the size-exceeded
error is raised — a buffer larger than the cap is accumulated. -/
theorem C1_counterexample :
    (execute cfgCap5 "cat big" (.ok behBig)).accumulatedBytes = 10 ∧
    cfgCap5.max_output_size = 5 ∧
    (execute cfgCap5 "cat big" (.ok behBig)).res = .sizeError 5 := by
  decide

/-- C1 (amended): the delivered output never exceeds the cap and a breach
always kills the process — in batch mode the returned result's
stdout+stderr total is at most `max_output_size` and an oversized output
yields the size-exceeded error with a kill (though only after the whole
output was first accumulated by `communicate()`); in streaming mode the
cumulative size of the yielded data chunks never exceeds `max_output_size`
and a cap breach kills the process. -/
theorem C1_output_cap (cfg : ExecConfig) (command : String) (beh : ProcBehavior)
    (hv : _validate_command cfg command = true)
    (hm : _monitor_process cfg beh.samples = .finished)
    (ht : beh.wallMs ≤ cfg.timeout_ms) :
    (beh.stdout.length + beh.stderr.length > cfg.max_output_size →
        (execute cfg command (.ok beh)).res = .sizeError cfg.max_output_size ∧
        (execute cfg command (.ok beh)).killIssued = true) ∧
    (beh.stdout.length + beh.stderr.length ≤ cfg.max_output_size →
        ∃ r', (execute cfg command (.ok beh)).res = .result r' ∧
          r'.stdout.length + r'.stderr.length ≤ cfg.max_output_size) ∧
    (∀ steps, streamedDataBytes (execute_stream cfg command steps) ≤ cfg.max_output_size ∧
        ((execute_stream cfg command steps).outcome = .sizeExceeded →
          (execute_stream cfg command steps).killIssued = true)) := by
  have h1 : ¬ (beh.wallMs > cfg.timeout_ms) := by omega
  refine ⟨fun hs => ?_, fun hs => ?_, fun steps => ?_⟩
  · unfold execute
    simp [hv, hm, h1, hs]
  · unfold execute
    have h2 : ¬ (beh.stdout.length + beh.stderr.length > cfg.max_output_size) := by omega
    simp [hv, hm, h1, h2]
    exact hs
  · unfold execute_stream
    simp only [hv, Bool.not_true, Bool.false_eq_true, if_false]
    constructor
    · simpa using streamLoop_total_le cfg steps 0 (Nat.zero_le _)
    · intro hso
      exact (streamLoop_sizeExceeded cfg steps 0 hso).2

/-- C1 witness: under a 5-byte cap a 10-byte batch output produces the
size-exceeded error with a kill, and a 10-byte streamed chunk is withheld so
the delivered stream stays within the cap. -/
theorem C1_output_cap_witness :
    ((execute cfgCap5 "cat big" (.ok behBig)).res = .sizeError cfgCap5.max_output_size ∧
     (execute cfgCap5 "cat big" (.ok behBig)).killIssued = true) ∧
    streamedDataBytes (execute_stream cfgCap5 "cat big" stepsBig) ≤ cfgCap5.max_output_size :=
  ⟨(C1_output_cap cfgCap5 "cat big" behBig (by decide) (by decide) (by decide)).1 (by decide),
   ((C1_output_cap cfgCap5 "cat big" behBig (by decide) (by decide) (by decide)).2.2 stepsBig).1⟩

/-- C4 counterexample: an executor constructed with no resource limits at
all still enforces the non-optional defaults — a 60 s process is killed with
a raised timeout at the default 30 s deadline, so the command cannot run
arbitrarily long. -/
theorem C4_counterexample :
    cfgDefaults.cpu_time_ms = none ∧ cfgDefaults.max_memory_mb = none ∧
    cfgDefaults.max_processes = none ∧
    (execute cfgDefaults "sleep 60" (.ok behSlow)).res = .timeoutError ∧
    (execute cfgDefaults "sleep 60" (.ok behSlow)).killIssued = true := by
  decide

/-- C4 (amended): when no CPU, memory or process ceiling is configured, the
monitor (which is always started) performs no checks and never signals a
breach, so no invocation can end in ResourceLimitExceeded; but `timeout_ms`
and `max_output_size` cannot be unset (they default to 30000 ms and 1 MiB)
and remain enforced. -/
theorem C4_no_resource_limits (cfg : ExecConfig)
    (hc : cfg.cpu_time_ms = none) (hmem : cfg.max_memory_mb = none)
    (hp : cfg.max_processes = none) :
    (∀ samples, _monitor_process cfg samples = .finished) ∧
    (∀ command w kind, (execute cfg command w).res ≠ .limitError kind) := by
  have hmon : ∀ samples, _monitor_process cfg samples = .finished := by
    intro samples
    induction samples with
    | nil => rfl
    | cons s rest ih =>
        unfold _monitor_process
        rw [hc, hmem, hp]
        simp [pyTruthyNat, ih]
  refine ⟨hmon, fun command w kind => ?_⟩
  unfold execute
  by_cases hv : _validate_command cfg command
  · simp only [hv, Bool.not_true, Bool.false_eq_true, if_false]
    cases w with
    | fileNotFound => simp
    | otherError msg => simp
    | ok beh =>
        simp only [hmon beh.samples]
        split
        · simp
        · split
          · simp
          · simp
  · simp only [Bool.not_eq_true] at hv
    simp [hv]

/-- C4 witness: with the three ceilings absent a sample cannot breach, and
the slow process's outcome is not a resource-limit failure (it is a
timeout). -/
theorem C4_no_resource_limits_witness :
    _monitor_process cfgDefaults [sampleCpuBusy] = .finished ∧
    (execute cfgDefaults "sleep 60" (.ok behSlow)).res ≠ .limitError .cpu :=
  ⟨(C4_no_resource_limits cfgDefaults rfl rfl rfl).1 [sampleCpuBusy],
   (C4_no_resource_limits cfgDefaults rfl rfl rfl).2 "sleep 60" (.ok behSlow) .cpu⟩

/-- C9 counterexample: after a chunk has been delivered, a timeout is raised
out of the generator (`asyncio.TimeoutError`), not appended as a final
error-tagged element — the stream ends with `trailingMsg = none` and the
`timedOut` outcome. -/
theorem C9_counterexample :
    execute_stream cfgDefaults "cat bigfile" stepsThenLate =
      { chunks := [(Tag.stdout, "hi")], trailingMsg := none,
        outcome := .timedOut, killIssued := true } := by
  decide

/-- C9 (amended): in streaming mode only an output-cap breach discovered
after streaming began is delivered as a final stderr-tagged message chunk
(with the process killed); a timeout is raised as a top-level failure with no
final element even when chunks were already delivered, and resource limits
are not monitored in streaming mode at all. -/
theorem C9_stream_failure_delivery (cfg : ExecConfig) (command : String)
    (steps : List StreamStep) :
    ((execute_stream cfg command steps).outcome = .sizeExceeded →
        (execute_stream cfg command steps).trailingMsg =
          some (sizeExceededMsg cfg.max_output_size) ∧
        (execute_stream cfg command steps).killIssued = true) ∧
    ((execute_stream cfg command steps).outcome = .timedOut →
        (execute_stream cfg command steps).trailingMsg = none ∧
        (execute_stream cfg command steps).killIssued = true) := by
  unfold execute_stream
  split
  · constructor <;> intro h <;> simp at h
  · exact ⟨streamLoop_sizeExceeded cfg steps 0, streamLoop_timedOut cfg steps 0⟩

/-- C9 witness: a 10-byte chunk under a 5-byte cap ends the stream with the
size-exceeded stderr message and a killed process. -/
theorem C9_stream_failure_delivery_witness :
    (execute_stream cfgCap5 "cat big2" stepsBig).trailingMsg =
      some (sizeExceededMsg cfgCap5.max_output_size) ∧
    (execute_stream cfgCap5 "cat big2" stepsBig).killIssued = true :=
  (C9_stream_failure_delivery cfgCap5 "cat big2" stepsBig).1 (by decide)

end McpTerminal
